import Mathlib

/-!
Verification of the Songs List application (NestJS backend + React frontend).

The definitions below are a shallow embedding of the code paths the claims
are about:

* `SongsService.loadCSV` (src/backend/src/songs/songs.service.ts, lines
  102-164): buffer-based CSV ingestion used by the upload endpoint;
* `SongsService.importCSV` (same file, lines 48-95): csv-parser based
  ingestion of the bundled sample file, modelled from its `data`/`end`
  handlers (rows arrive as key/value maps produced by the csv-parser
  library);
* `SongsService.findAll` (same file, lines 25-41): the listing query;
* `SongsController.uploadCSV`: the upload endpoint's validation;
* the frontend year filter (`filteredSongs` in the App component).

JavaScript string primitives (`split`, `trim`, `toLowerCase`, `includes`,
`replace(/"/g,'')`, `parseInt`, `||` on strings/numbers) are embedded as
structurally recursive Lean functions on `List Char` so that every
definition evaluates inside the kernel.  `trim` and `toLowerCase` are
modelled on the ASCII range, which covers every character the program's
CSV fields and claims exercise.
-/

/-- ASCII whitespace as trimmed by JavaScript `String.prototype.trim`
    (restricted to the ASCII characters that occur in CSV text). -/
def jsWS (c : Char) : Bool :=
  c = ' ' || c = '\t' || c = '\n' || c = '\r'

/-- JavaScript `s.trim()`: drop leading and trailing whitespace. -/
def jsTrim (s : String) : String :=
  String.mk (((s.data.dropWhile jsWS).reverse.dropWhile jsWS).reverse)

/-- Lower-case a single character (ASCII range, as the program's data uses). -/
def jsLowerChar (c : Char) : Char :=
  if 'A' ≤ c ∧ c ≤ 'Z' then Char.ofNat (c.toNat + 32) else c

/-- JavaScript `s.toLowerCase()` on the ASCII range. -/
def jsToLower (s : String) : String :=
  String.mk (s.data.map jsLowerChar)

/-- JavaScript `s.replace(/"/g, '')`: delete every straight double quote. -/
def stripQuotes (s : String) : String :=
  String.mk (s.data.filter (fun c => c ≠ '"'))

/-- Auxiliary for `jsSplitChar`: split a character list at every occurrence
    of `c`, keeping empty segments (JavaScript `split` semantics). -/
def splitCharsAux (c : Char) (cur : List Char) : List Char → List (List Char)
  | [] => [cur.reverse]
  | x :: xs =>
      if x = c then cur.reverse :: splitCharsAux c [] xs
      else splitCharsAux c (x :: cur) xs

/-- JavaScript `s.split(sep)` for a one-character separator (the program
    only splits on `'\n'`, `';'` and `','`).  `"".split(sep) = [""]`,
    trailing separators produce a trailing empty segment. -/
def jsSplitChar (c : Char) (s : String) : List String :=
  (splitCharsAux c [] s.data).map String.mk

/-- JavaScript `s.includes(c)` for a single character. -/
def strContainsChar (c : Char) (s : String) : Bool :=
  s.data.contains c

/-- Whether `p` occurs at the head of `cs` (character-list matching). -/
def charsStartWith : List Char → List Char → Bool
  | [], _ => true
  | _ :: _, [] => false
  | p :: ps, c :: cs => p = c && charsStartWith ps cs

/-- Whether `p` occurs somewhere inside `cs`. -/
def charsHasSub (p : List Char) : List Char → Bool
  | [] => charsStartWith p []
  | c :: cs => charsStartWith p (c :: cs) || charsHasSub p cs

/-- JavaScript `s.includes(pat)`: substring containment test. -/
def strIncludes (s pat : String) : Bool :=
  charsHasSub pat.data s.data

/-- Value of a character as a digit (base ≤ 16); `99` marks a non-digit. -/
def digitVal (c : Char) : Nat :=
  if '0' ≤ c ∧ c ≤ '9' then c.toNat - '0'.toNat
  else if 'a' ≤ c ∧ c ≤ 'f' then c.toNat - 'a'.toNat + 10
  else if 'A' ≤ c ∧ c ≤ 'F' then c.toNat - 'A'.toNat + 10
  else 99

/-- JavaScript `parseInt(s)` (no radix argument): skip leading whitespace,
    read an optional sign, honour a `0x`/`0X` hexadecimal prefix, then take
    the maximal run of digits of the base; `none` models `NaN` (no digits
    at all). -/
def jsParseInt (s : String) : Option Int :=
  let cs := s.data.dropWhile jsWS
  let signRest : Int × List Char :=
    match cs with
    | '-' :: rest => (-1, rest)
    | '+' :: rest => (1, rest)
    | _ => (1, cs)
  let baseRest : Nat × List Char :=
    match signRest.2 with
    | '0' :: 'x' :: rest => (16, rest)
    | '0' :: 'X' :: rest => (16, rest)
    | _ => (10, signRest.2)
  let ds := baseRest.2.takeWhile (fun c => digitVal c < baseRest.1)
  if ds.isEmpty then none
  else some (signRest.1 *
    Int.ofNat (ds.foldl (fun acc c => acc * baseRest.1 + digitVal c) 0))

/-- Song record as inserted into the `song` table
    (src/backend/src/songs/songs.service.ts, lines 10-15; the store-assigned
    `id` plays no role in the claims). -/
structure Song where
  song_name : String
  band_name : String
  year : Int
deriving Repr, DecidableEq

/-- Year computation `parseInt(v) || currentYear` (songs.service.ts lines 60
    and 123): JavaScript `||` falls through on the falsy numbers `NaN` and
    `0`, so any failed parse or zero result yields the current year. -/
def yearField (v : String) (currentYear : Int) : Int :=
  match jsParseInt v with
  | some n => if n = 0 then currentYear else n
  | none => currentYear

/-- Field normalization `.toLowerCase().trim()` applied to a CSV field
    (songs.service.ts lines 121-122; the trailing `|| ''` of the source is
    the identity here because the field is always a defined string). -/
def normName (v : String) : String :=
  jsTrim (jsToLower v)

/-- The field list of one data row: `lines[i].split(delimiter).map(v =>
    v.trim().replace(/"/g, ''))` (songs.service.ts line 117). -/
def rowValues (delimiter : Char) (line : String) : List String :=
  (jsSplitChar delimiter line).map (fun v => stripQuotes (jsTrim v))

/-- Body of the row loop of `loadCSV` (songs.service.ts lines 116-131):
    skip blank lines, skip rows with fewer than 3 fields, build the song
    from positional fields 0/1/2 and keep it only when both normalized
    names are non-empty (JavaScript truthiness of non-empty strings). -/
def processRow (currentYear : Int) (delimiter : Char) (songs : List Song)
    (line : String) : List Song :=
  if jsTrim line ≠ "" then
    let values := rowValues delimiter line
    if 3 ≤ values.length then
      let song : Song :=
        { song_name := normName (values.getD 0 "")
          band_name := normName (values.getD 1 "")
          year := yearField (values.getD 2 "") currentYear }
      if song.song_name ≠ "" ∧ song.band_name ≠ "" then songs ++ [song]
      else songs
    else songs
  else songs

/-- Parsing stage of `loadCSV` over the already-split line list
    (songs.service.ts lines 112-132): the delimiter is semicolon when the
    header line contains one, comma otherwise, and rows 1.. are folded
    through `processRow`.  (Line 113 of the source also computes a
    `headers` array, which the row loop never uses.) -/
def parseLines (currentYear : Int) (lines : List String) : List Song :=
  let delimiter := if strContainsChar ';' (lines.headD "") then ';' else ','
  (lines.drop 1).foldl (processRow currentYear delimiter) []

/-- Full pure parsing pipeline of `loadCSV` (songs.service.ts lines
    108-132): decode the buffer, split on `'\n'`, parse the lines.
    `currentYear` stands for `new Date().getFullYear()` at ingestion time. -/
def loadCSVParse (currentYear : Int) (csvData : String) : List Song :=
  parseLines currentYear (jsSplitChar '\n' csvData)

/-- Outcome of an ingestion operation: `rejected` is the promise rejecting
    before any insert is attempted, `inserted` records the batch passed to
    the store insert together with the success message. -/
inductive UploadOutcome where
  | rejected (message : String)
  | inserted (songs : List Song) (message : String)
deriving Repr, DecidableEq

/-- Outcome of `loadCSV` (songs.service.ts lines 138-163): reject with
    "No valid songs found in CSV file" when no row was accepted — before
    the insert — and otherwise insert the batch and resolve. -/
def loadCSV (currentYear : Int) (csvData : String) : UploadOutcome :=
  let songs := loadCSVParse currentYear csvData
  if songs.isEmpty then UploadOutcome.rejected "No valid songs found in CSV file"
  else UploadOutcome.inserted songs
    ("Successfully uploaded " ++ toString songs.length ++ " songs")

/-- Rows delivered by the csv-parser library to `importCSV`'s `data`
    handler: a finite key/value map from header names to field strings,
    represented as an association list. -/
def CsvRow : Type := List (String × String)

/-- JavaScript property access `row[key]`: `none` models `undefined`. -/
def rowGet (row : CsvRow) (key : String) : Option String :=
  (row.find? (fun p => p.fst = key)).map Prod.snd

/-- JavaScript `a || b` on an optional string: `a` when it is defined and
    truthy (non-empty), otherwise `b`. -/
def jsOrStr (a b : Option String) : Option String :=
  match a with
  | some s => if s ≠ "" then some s else b
  | none => b

/-- Field access of `importCSV`'s row mapping (songs.service.ts lines
    58-60): `row[key] || row['Song Name;Band;Year']?.split(';')[idx]` —
    the named column when present and non-empty, otherwise position `idx`
    of the single semicolon-joined column, otherwise `undefined`. -/
def importField (row : CsvRow) (key : String) (idx : Nat) : Option String :=
  jsOrStr (rowGet row key)
    ((rowGet row "Song Name;Band;Year").bind (fun s => (jsSplitChar ';' s)[idx]?))

/-- The song built from one csv-parser row (songs.service.ts lines 57-61):
    `?.toLowerCase().trim() || ''` collapses an undefined field to the
    empty string, and the year falls back to the current year exactly as in
    `loadCSV`. -/
def importRowToSong (currentYear : Int) (row : CsvRow) : Song :=
  { song_name :=
      match importField row "Song Name" 0 with
      | some s => normName s
      | none => ""
    band_name :=
      match importField row "Band" 1 with
      | some s => normName s
      | none => ""
    year :=
      match importField row "Year" 2 with
      | some v => yearField v currentYear
      | none => currentYear }

/-- Accumulation of `importCSV`'s `data` handler over all delivered rows
    (songs.service.ts lines 54-67): a song is pushed only when both
    required fields are non-empty. -/
def importCSVSongs (currentYear : Int) (rows : List CsvRow) : List Song :=
  rows.foldl (fun songs row =>
    let song := importRowToSong currentYear row
    if song.song_name ≠ "" ∧ song.band_name ≠ "" then songs ++ [song]
    else songs) []

/-- Outcome of `importCSV`'s `end` handler (songs.service.ts lines 68-90):
    reject with "No valid songs found in CSV file" when no row was
    accepted — before the insert — otherwise insert and resolve. -/
def importCSVOutcome (currentYear : Int) (rows : List CsvRow) : UploadOutcome :=
  let songs := importCSVSongs currentYear rows
  if songs.isEmpty then UploadOutcome.rejected "No valid songs found in CSV file"
  else UploadOutcome.inserted songs
    ("Successfully imported " ++ toString songs.length ++ " songs from file")

/-- The uploaded multipart file as the controller sees it: a declared MIME
    type and the decoded buffer contents. -/
structure UploadedFile where
  mimetype : String
  buffer : String
deriving Repr, DecidableEq

/-- HTTP-level result of the upload endpoint: `badRequest` models a thrown
    `BadRequestException` (status 400), `serverError` a thrown
    `HttpException` with status 500, and `ok` a 2xx response carrying the
    batch that was inserted.  Only `ok` involves a store insert. -/
inductive ControllerResult where
  | badRequest (message : String)
  | serverError (message : String)
  | ok (songs : List Song) (message : String)
deriving Repr, DecidableEq

/-- The try/catch wrapper of the controller around `loadCSV`, as a function
    on outcomes: a resolved promise becomes the 2xx response, a rejection
    is re-thrown as a 500 `HttpException` with the prefixed message. -/
def wrapLoad : UploadOutcome → ControllerResult
  | UploadOutcome.inserted songs msg => ControllerResult.ok songs msg
  | UploadOutcome.rejected msg =>
      ControllerResult.serverError ("Failed to process CSV file: " ++ msg)

/-- `SongsController.uploadCSV` (songs.controller.ts): reject with 400 when
    no file was uploaded; reject with 400 when the declared mimetype does
    not contain the substring "csv" (`!file.mimetype.includes('csv')`);
    otherwise run `loadCSV` on the buffer under the try/catch wrapper. -/
def uploadCSVController (currentYear : Int) (file : Option UploadedFile) :
    ControllerResult :=
  match file with
  | none => ControllerResult.badRequest "No file uploaded"
  | some f =>
      if strIncludes f.mimetype "csv" then
        wrapLoad (loadCSV currentYear f.buffer)
      else ControllerResult.badRequest "File must be a CSV"

/-- MIME types accepted by the frontend dropzone
    (src/frontend/src/components/FileUpload.tsx, `useDropzone` `accept`). -/
def dropzoneAcceptTypes : List String :=
  ["text/csv", "application/vnd.ms-excel"]

/-- Byte-wise lexicographic `≤` on character lists: the order in which the
    store returns `band_name` (ASCII data under the backing collation). -/
def charsLe : List Char → List Char → Bool
  | [], _ => true
  | _ :: _, [] => false
  | a :: as, b :: bs => if a = b then charsLe as bs else decide (a < b)

/-- Comparison used by the listing order: `band_name` ascending. -/
def bandLe (a b : Song) : Prop :=
  charsLe a.band_name.data b.band_name.data = true

instance : DecidableRel bandLe := fun a b => by
  unfold bandLe; infer_instance

/-- Append-only batch insert into the `song` table (the store keeps natural
    row order). -/
def storeInsert (store : List Song) (records : List Song) : List Song :=
  store ++ records

/-- Modelled from the spec: `findAll` issues
    `.from('song').select('*').order('band_name', { ascending: true })`
    (songs.service.ts lines 25-41); the ordering itself is executed by the
    external database, which the spec describes as returning every record
    ordered by `band_name` ascending with ties in natural row order — a
    stable sort of the stored rows by `band_name`. -/
def findAll (store : List Song) : List Song :=
  store.insertionSort bandLe

/-- Frontend song record as the App component reads it
    (src/frontend/src/types/song.ts, revision with capitalized keys):
    `Year` is optional. -/
structure FrontSong where
  SongName : String
  Band : String
  Year : Option Int
deriving Repr, DecidableEq

/-- JavaScript `song.Year?.toString() || ''` (App component): the decimal
    rendering of the year, or the empty string when the year is absent. -/
def yearKey : Option Int → String
  | some n => toString n
  | none => ""

/-- `filteredSongs` of the App component: with no selected years every song
    is shown; otherwise
    `songs.filter(song => selectedYears.includes(song.Year?.toString() || ''))`. -/
def filteredSongs (songs : List FrontSong) (selectedYears : List String) :
    List FrontSong :=
  if selectedYears.length = 0 then songs
  else songs.filter (fun song => selectedYears.contains (yearKey song.Year))

/-- Modelled from the spec for the refinement statement of the delimiter
    rule, in the spec's words: "if the header line contains a semicolon,
    treat the whole file as semicolon-delimited; otherwise
    comma-delimited". -/
def specDelimiter (header : String) : Char :=
  if ';' ∈ header.data then ';' else ','

lemma strContainsChar_iff (c : Char) (s : String) :
    strContainsChar c s = true ↔ c ∈ s.data := by
  simp [strContainsChar, List.contains, List.elem_iff]

/-- C2: for every input CSV, the delimiter used to split every data row is
    the semicolon exactly when the header (first) line contains one and the
    comma otherwise, and that choice is a function of the header line
    alone: the parsing stage of `loadCSV` equals a fold of the per-row
    splitter `processRow` instantiated with `specDelimiter` of the header,
    the spec-side delimiter rule. -/
theorem delimiter_determined_by_header (currentYear : Int) (lines : List String) :
    parseLines currentYear lines =
      (lines.drop 1).foldl
        (processRow currentYear (specDelimiter (lines.headD ""))) [] := by
  unfold parseLines specDelimiter
  by_cases h : ';' ∈ (lines.headD "").data
  · rw [if_pos ((strContainsChar_iff _ _).mpr h), if_pos h]
  · rw [if_neg (fun hc => h ((strContainsChar_iff _ _).mp hc)), if_neg h]

/-- C1 counterexample: on the CSV `"band,song,year\nThe Beatles,Hey Jude,1968"`
    the ingestion maps the fields positionally, so the single produced
    record is `song_name = "the beatles"`, `band_name = "hey jude"` — the
    list of produced song names is not `["hey jude"]` as the claim
    states. -/
theorem upload_scenario_counterexample :
    loadCSVParse 2026 "band,song,year\nThe Beatles,Hey Jude,1968" =
      [{ song_name := "the beatles", band_name := "hey jude", year := 1968 }] ∧
    (loadCSVParse 2026 "band,song,year\nThe Beatles,Hey Jude,1968").map
        Song.song_name ≠ ["hey jude"] := by
  decide

/-- C1 (amended): for the single-data-row input CSV
    `"band,song,year\nThe Beatles,Hey Jude,1968"`, exactly one record is
    produced, and — by the positional field mapping `field 0 → song_name`,
    `field 1 → band_name` — it has `song_name = "the beatles"`,
    `band_name = "hey jude"` and `year = 1968`, whatever the current year
    is at ingestion time. -/
theorem upload_scenario_positional (currentYear : Int) :
    loadCSVParse currentYear "band,song,year\nThe Beatles,Hey Jude,1968" =
      [{ song_name := "the beatles", band_name := "hey jude", year := 1968 }] := by
  rfl

/-- C3: for every non-blank data row, a row whose field list has fewer
    than 3 entries contributes nothing, and a row with at least 3 fields
    contributes a record exactly when both the normalized song name
    (field 0) and the normalized band name (field 1) are non-empty. -/
theorem row_acceptance_rule (currentYear : Int) (delimiter : Char)
    (songs : List Song) (line : String) (hne : jsTrim line ≠ "") :
    ((rowValues delimiter line).length < 3 →
      processRow currentYear delimiter songs line = songs) ∧
    (3 ≤ (rowValues delimiter line).length →
      ((∃ s, processRow currentYear delimiter songs line = songs ++ [s]) ↔
        (normName ((rowValues delimiter line).getD 0 "") ≠ "" ∧
         normName ((rowValues delimiter line).getD 1 "") ≠ ""))) := by
  constructor
  · intro hlt
    unfold processRow
    rw [if_pos hne, if_neg (by omega)]
  · intro h3
    constructor
    · rintro ⟨s, hs⟩
      unfold processRow at hs
      rw [if_pos hne, if_pos h3] at hs
      by_cases hcond :
          normName ((rowValues delimiter line).getD 0 "") ≠ "" ∧
          normName ((rowValues delimiter line).getD 1 "") ≠ ""
      · exact hcond
      · rw [if_neg hcond] at hs
        have := congrArg List.length hs
        simp at this
    · intro hcond
      refine ⟨{ song_name := normName ((rowValues delimiter line).getD 0 "")
                band_name := normName ((rowValues delimiter line).getD 1 "")
                year := yearField ((rowValues delimiter line).getD 2 "") currentYear }, ?_⟩
      unfold processRow
      rw [if_pos hne, if_pos h3, if_pos hcond]

/-- C3 witness: the acceptance rule applied to the concrete non-blank row
    `"The Beatles,Hey Jude,1968"`, which has 3 fields and contributes a
    record, hence both normalized names are non-empty. -/
theorem row_acceptance_rule_witness :
    normName "The Beatles" ≠ "" ∧ normName "Hey Jude" ≠ "" :=
  ((row_acceptance_rule 2026 ',' [] "The Beatles,Hey Jude,1968"
      (by decide)).2 (by decide)).mp
    ⟨{ song_name := "the beatles", band_name := "hey jude", year := 1968 },
      by decide⟩

lemma append_singleton_ne (songs : List Song) (s : Song) :
    songs ≠ songs ++ [s] := by
  intro h
  have := congrArg List.length h
  simp at this

/-- C4: whenever the year field of a row fails to parse as an integer
    (`parseInt` yields `NaN`), the record built from that row carries the
    current calendar year — both for a row accepted by the upload
    ingestion's `processRow` and for a row of the sample-import pipeline
    whose year field is absent or unparseable. -/
theorem year_fallback_to_current :
    (∀ (currentYear : Int) (delimiter : Char) (songs : List Song)
       (line : String) (s : Song),
       jsParseInt ((rowValues delimiter line).getD 2 "") = none →
       processRow currentYear delimiter songs line = songs ++ [s] →
       s.year = currentYear) ∧
    (∀ (currentYear : Int) (row : CsvRow),
       (importField row "Year" 2 = none ∨
        ∃ v, importField row "Year" 2 = some v ∧ jsParseInt v = none) →
       (importRowToSong currentYear row).year = currentYear) := by
  constructor
  · intro currentYear delimiter songs line s hparse hs
    unfold processRow at hs
    by_cases h1 : jsTrim line ≠ ""
    · rw [if_pos h1] at hs
      by_cases h2 : 3 ≤ (rowValues delimiter line).length
      · rw [if_pos h2] at hs
        by_cases h3 :
            normName ((rowValues delimiter line).getD 0 "") ≠ "" ∧
            normName ((rowValues delimiter line).getD 1 "") ≠ ""
        · rw [if_pos h3] at hs
          have hsong := List.append_inj_right hs rfl
          have hx : ({ song_name := normName ((rowValues delimiter line).getD 0 "")
                       band_name := normName ((rowValues delimiter line).getD 1 "")
                       year := yearField ((rowValues delimiter line).getD 2 "")
                         currentYear } : Song) = s := by
            simpa using hsong
          rw [← hx]
          show yearField ((rowValues delimiter line).getD 2 "") currentYear = currentYear
          unfold yearField
          rw [hparse]
        · rw [if_neg h3] at hs
          exact absurd hs (append_singleton_ne songs s)
      · rw [if_neg h2] at hs
        exact absurd hs (append_singleton_ne songs s)
    · rw [if_neg h1] at hs
      exact absurd hs (append_singleton_ne songs s)
  · intro currentYear row h
    rcases h with h | ⟨v, hv, hpv⟩
    · simp [importRowToSong, h]
    · simp [importRowToSong, hv, yearField, hpv]

/-- C4 witness: the concrete row `"a,b,xyz"` is accepted with the
    unparseable year `"xyz"`, and the produced record's year is the
    current year 2026; a sample-import row whose `Year` column holds
    `"abc"` likewise gets year 2026. -/
theorem year_fallback_to_current_witness :
    ({ song_name := "a", band_name := "b", year := 2026 } : Song).year = 2026 ∧
    (importRowToSong 2026 [("Year", "abc")]).year = 2026 :=
  ⟨year_fallback_to_current.1 2026 ',' [] "a,b,xyz"
      { song_name := "a", band_name := "b", year := 2026 }
      (by decide) (by decide),
   year_fallback_to_current.2 2026 [("Year", "abc")]
      (Or.inr ⟨"abc", rfl, by decide⟩)⟩

/-- C5: when ingestion accepts zero records — for the uploaded-file path
    (`loadCSV`) as well as the bundled-sample path (`importCSV`) — the
    operation rejects with the message "No valid songs found in CSV file";
    the `rejected` outcome is produced before the store insert, so no
    insert is attempted and the result is not an empty success. -/
theorem zero_accepted_rows_reject :
    (∀ (currentYear : Int) (csvData : String),
       loadCSVParse currentYear csvData = [] →
       loadCSV currentYear csvData =
         UploadOutcome.rejected "No valid songs found in CSV file") ∧
    (∀ (currentYear : Int) (rows : List CsvRow),
       importCSVSongs currentYear rows = [] →
       importCSVOutcome currentYear rows =
         UploadOutcome.rejected "No valid songs found in CSV file") := by
  constructor
  · intro currentYear csvData h
    unfold loadCSV
    rw [h]
    rfl
  · intro currentYear rows h
    unfold importCSVOutcome
    rw [h]
    rfl

/-- C5 witness: the header-only CSV `"band,song,year\n"` parses to zero
    records and is rejected, as is a sample import that delivers no
    rows. -/
theorem zero_accepted_rows_reject_witness :
    loadCSV 2026 "band,song,year\n" =
      UploadOutcome.rejected "No valid songs found in CSV file" ∧
    importCSVOutcome 2026 [] =
      UploadOutcome.rejected "No valid songs found in CSV file" :=
  ⟨zero_accepted_rows_reject.1 2026 "band,song,year\n" (by decide),
   zero_accepted_rows_reject.2 2026 [] (by decide)⟩

/-- C6: the upload endpoint rejects with a 400-class `BadRequestException`
    when no file is supplied ("No file uploaded") and when the declared
    mimetype does not contain "csv" ("File must be a CSV"); in both cases
    the result is the `badRequest` constructor, which is produced before
    `loadCSV` runs — no parsing and no store insert happens. -/
theorem upload_validation_rejects (currentYear : Int) (file : Option UploadedFile) :
    (file = none →
      uploadCSVController currentYear file =
        ControllerResult.badRequest "No file uploaded") ∧
    (∀ f, file = some f → strIncludes f.mimetype "csv" = false →
      uploadCSVController currentYear file =
        ControllerResult.badRequest "File must be a CSV") := by
  constructor
  · intro h
    rw [h]
    rfl
  · intro f hf hm
    subst hf
    show (if strIncludes f.mimetype "csv" = true then
        wrapLoad (loadCSV currentYear f.buffer)
      else ControllerResult.badRequest "File must be a CSV") =
      ControllerResult.badRequest "File must be a CSV"
    rw [hm]
    rfl

/-- C6 witness: a missing file and a `text/plain` file are both rejected
    with 400-class outcomes. -/
theorem upload_validation_rejects_witness :
    uploadCSVController 2026 none =
      ControllerResult.badRequest "No file uploaded" ∧
    uploadCSVController 2026
        (some { mimetype := "text/plain", buffer := "a,b,c\nd,e,f" }) =
      ControllerResult.badRequest "File must be a CSV" :=
  ⟨(upload_validation_rejects 2026 none).1 rfl,
   (upload_validation_rejects 2026
       (some { mimetype := "text/plain", buffer := "a,b,c\nd,e,f" })).2
     { mimetype := "text/plain", buffer := "a,b,c\nd,e,f" } rfl (by decide)⟩

/-- C10: the endpoint's media-type check is a substring test — a supplied
    file proceeds to parsing (`loadCSV` wrapped by the controller's
    catch) exactly when its declared mimetype contains the substring
    "csv", and is otherwise rejected with the 400-class "File must be a
    CSV"; `"application/vnd.ms-excel"` — one of the types the frontend
    dropzone accepts — does not contain "csv" and is therefore
    rejected. -/
theorem mimetype_substring_gate (currentYear : Int) (f : UploadedFile) :
    (strIncludes f.mimetype "csv" = true →
      uploadCSVController currentYear (some f) =
        wrapLoad (loadCSV currentYear f.buffer)) ∧
    (strIncludes f.mimetype "csv" = false →
      uploadCSVController currentYear (some f) =
        ControllerResult.badRequest "File must be a CSV") ∧
    strIncludes "application/vnd.ms-excel" "csv" = false ∧
    "application/vnd.ms-excel" ∈ dropzoneAcceptTypes := by
  refine ⟨?_, ?_, by decide, by decide⟩
  · intro hm
    show (if strIncludes f.mimetype "csv" = true then
        wrapLoad (loadCSV currentYear f.buffer)
      else ControllerResult.badRequest "File must be a CSV") =
      wrapLoad (loadCSV currentYear f.buffer)
    rw [hm]
    rfl
  · intro hm
    show (if strIncludes f.mimetype "csv" = true then
        wrapLoad (loadCSV currentYear f.buffer)
      else ControllerResult.badRequest "File must be a CSV") =
      ControllerResult.badRequest "File must be a CSV"
    rw [hm]
    rfl

/-- C10 witness: a file declared `text/csv` proceeds into the parsing
    pipeline, and a file declared `application/vnd.ms-excel` is rejected
    with the 400-class outcome. -/
theorem mimetype_substring_gate_witness :
    uploadCSVController 2026
        (some { mimetype := "text/csv", buffer := "h\na,b,c" }) =
      wrapLoad (loadCSV 2026 "h\na,b,c") ∧
    uploadCSVController 2026
        (some { mimetype := "application/vnd.ms-excel", buffer := "h\na,b,c" }) =
      ControllerResult.badRequest "File must be a CSV" :=
  ⟨(mimetype_substring_gate 2026
      { mimetype := "text/csv", buffer := "h\na,b,c" }).1 (by decide),
   (mimetype_substring_gate 2026
      { mimetype := "application/vnd.ms-excel", buffer := "h\na,b,c" }).2.1
     (by decide)⟩

lemma charsLe_total : ∀ as bs : List Char, charsLe as bs = true ∨ charsLe bs as = true := by
  intro as
  induction as with
  | nil => intro bs; left; rfl
  | cons a as ih =>
    intro bs
    cases bs with
    | nil => right; rfl
    | cons b bs =>
      by_cases hab : a = b
      · subst hab
        simp only [charsLe, if_pos rfl]
        exact ih bs
      · simp only [charsLe, if_neg hab, if_neg (Ne.symm hab), decide_eq_true_eq]
        rcases lt_or_gt_of_ne hab with h | h
        · left; exact h
        · right; exact h

lemma charsLe_trans : ∀ as bs cs : List Char,
    charsLe as bs = true → charsLe bs cs = true → charsLe as cs = true := by
  intro as
  induction as with
  | nil => intro bs cs _ _; rfl
  | cons a as ih =>
    intro bs cs h1 h2
    cases bs with
    | nil => simp [charsLe] at h1
    | cons b bs =>
      cases cs with
      | nil => simp [charsLe] at h2
      | cons c cs =>
        by_cases hab : a = b
        · subst hab
          simp only [charsLe, if_pos rfl] at h1
          by_cases hbc : a = c
          · subst hbc
            simp only [charsLe, if_pos rfl] at h2 ⊢
            exact ih bs cs h1 h2
          · simp only [charsLe, if_neg hbc, decide_eq_true_eq] at h2 ⊢
            exact h2
        · simp only [charsLe, if_neg hab, decide_eq_true_eq] at h1
          by_cases hbc : b = c
          · subst hbc
            simp only [charsLe, if_neg hab, decide_eq_true_eq]
            exact h1
          · simp only [charsLe, if_neg hbc, decide_eq_true_eq] at h2
            have hac : a < c := lt_trans h1 h2
            simp only [charsLe, if_neg (ne_of_lt hac), decide_eq_true_eq]
            exact hac

instance : IsTotal Song bandLe :=
  ⟨fun a b => charsLe_total a.band_name.data b.band_name.data⟩

instance : IsTrans Song bandLe :=
  ⟨fun a b c => charsLe_trans a.band_name.data b.band_name.data c.band_name.data⟩

/-- C7: the listing returns every stored record ordered by `band_name`
    ascending — for every store contents, `findAll` is a permutation of the
    store sorted by `bandLe` — and concretely, after inserting the
    ("hey jude", "the beatles", 1968) record and then the
    ("bohemian rhapsody", "queen", 1975) record into an empty store, the
    returned list contains both with the "queen" row first. -/
theorem findAll_sorted_by_band :
    (∀ store : List Song,
       List.Perm (findAll store) store ∧ List.Sorted bandLe (findAll store)) ∧
    findAll (storeInsert (storeInsert []
        [{ song_name := "hey jude", band_name := "the beatles", year := 1968 }])
        [{ song_name := "bohemian rhapsody", band_name := "queen", year := 1975 }]) =
      [{ song_name := "bohemian rhapsody", band_name := "queen", year := 1975 },
       { song_name := "hey jude", band_name := "the beatles", year := 1968 }] := by
  refine ⟨fun store =>
    ⟨List.perm_insertionSort bandLe store, List.sorted_insertionSort bandLe store⟩, ?_⟩
  decide

/-- C8: for every fetched record set and every multi-select year filter,
    an empty selection shows every record, and a non-empty selection shows
    a record exactly when its rendered year key (`song.Year?.toString() ||
    ''`) is among the selected values. -/
theorem year_filter_membership (songs : List FrontSong) (selectedYears : List String) :
    (selectedYears = [] → filteredSongs songs selectedYears = songs) ∧
    (selectedYears ≠ [] → ∀ s : FrontSong,
      s ∈ filteredSongs songs selectedYears ↔
        s ∈ songs ∧ yearKey s.Year ∈ selectedYears) := by
  constructor
  · intro h
    subst h
    rfl
  · intro h s
    unfold filteredSongs
    rw [if_neg (fun hc => h (List.length_eq_zero.mp hc))]
    simp [List.mem_filter, List.contains, List.elem_iff]

/-- C8 witness: with no selected years the single-song list is returned
    unchanged, and with the selection `["5"]` membership is characterized
    by the year key. -/
theorem year_filter_membership_witness :
    filteredSongs [{ SongName := "hey jude", Band := "the beatles", Year := some 5 }] [] =
      [{ SongName := "hey jude", Band := "the beatles", Year := some 5 }] ∧
    (({ SongName := "hey jude", Band := "the beatles", Year := some 5 } : FrontSong) ∈
        filteredSongs [{ SongName := "hey jude", Band := "the beatles", Year := some 5 }] ["5"] ↔
      ({ SongName := "hey jude", Band := "the beatles", Year := some 5 } : FrontSong) ∈
        [({ SongName := "hey jude", Band := "the beatles", Year := some 5 } : FrontSong)] ∧
      yearKey (some 5) ∈ ["5"]) :=
  ⟨(year_filter_membership
      [{ SongName := "hey jude", Band := "the beatles", Year := some 5 }] []).1 rfl,
   (year_filter_membership
      [{ SongName := "hey jude", Band := "the beatles", Year := some 5 }] ["5"]).2
     (by decide) { SongName := "hey jude", Band := "the beatles", Year := some 5 }⟩

lemma yearField_ne_zero (v : String) (currentYear : Int) (h : currentYear ≠ 0) :
    yearField v currentYear ≠ 0 := by
  unfold yearField
  cases hp : jsParseInt v with
  | none => exact h
  | some n =>
    show (if n = 0 then currentYear else n) ≠ 0
    by_cases hn : n = 0
    · rw [if_pos hn]; exact h
    · rw [if_neg hn]; exact hn

lemma foldl_mem_inv {α β : Type} (f : List α → β → List α) (Q : α → Prop)
    (hf : ∀ acc b s, s ∈ f acc b → s ∈ acc ∨ Q s) :
    ∀ (l : List β) (acc : List α) (s : α), s ∈ l.foldl f acc → s ∈ acc ∨ Q s := by
  intro l
  induction l with
  | nil => intro acc s hs; exact Or.inl hs
  | cons b l ih =>
    intro acc s hs
    rcases ih (f acc b) s hs with h | h
    · exact hf acc b s h
    · exact Or.inr h

lemma processRow_mem (currentYear : Int) (delimiter : Char) (songs : List Song)
    (line : String) (s : Song) (hs : s ∈ processRow currentYear delimiter songs line) :
    s ∈ songs ∨ ∃ v, s.year = yearField v currentYear := by
  unfold processRow at hs
  by_cases h1 : jsTrim line ≠ ""
  · rw [if_pos h1] at hs
    by_cases h2 : 3 ≤ (rowValues delimiter line).length
    · rw [if_pos h2] at hs
      by_cases h3 : normName ((rowValues delimiter line).getD 0 "") ≠ "" ∧
          normName ((rowValues delimiter line).getD 1 "") ≠ ""
      · rw [if_pos h3] at hs
        rcases List.mem_append.mp hs with h | h
        · exact Or.inl h
        · refine Or.inr ⟨(rowValues delimiter line).getD 2 "", ?_⟩
          rw [List.mem_singleton.mp h]
      · rw [if_neg h3] at hs
        exact Or.inl hs
    · rw [if_neg h2] at hs
      exact Or.inl hs
  · rw [if_neg h1] at hs
    exact Or.inl hs

lemma importRow_year (currentYear : Int) (row : CsvRow) :
    (importRowToSong currentYear row).year = currentYear ∨
    ∃ v, (importRowToSong currentYear row).year = yearField v currentYear := by
  unfold importRowToSong
  dsimp only
  cases h : importField row "Year" 2 with
  | none => left; rfl
  | some v => right; exact ⟨v, rfl⟩

lemma importStep_mem (currentYear : Int) (acc : List Song) (row : CsvRow) (s : Song)
    (hs : s ∈ (if (importRowToSong currentYear row).song_name ≠ "" ∧
                  (importRowToSong currentYear row).band_name ≠ ""
               then acc ++ [importRowToSong currentYear row] else acc)) :
    s ∈ acc ∨ (s.year = currentYear ∨ ∃ v, s.year = yearField v currentYear) := by
  by_cases hc : (importRowToSong currentYear row).song_name ≠ "" ∧
      (importRowToSong currentYear row).band_name ≠ ""
  · rw [if_pos hc] at hs
    rcases List.mem_append.mp hs with h | h
    · exact Or.inl h
    · right
      rw [List.mem_singleton.mp h]
      exact importRow_year currentYear row
  · rw [if_neg hc] at hs
    exact Or.inl hs

/-- C9: the year fallback triggers on any falsy parse result — whenever
    `parseInt` yields the integer 0 the stored year is the current year —
    and consequently, when the current year is non-zero, no record produced
    by either ingestion path has year 0. -/
theorem year_zero_falls_back :
    (∀ (currentYear : Int) (v : String),
       jsParseInt v = some 0 → yearField v currentYear = currentYear) ∧
    (∀ currentYear : Int, currentYear ≠ 0 →
       (∀ (csvData : String) (s : Song),
          s ∈ loadCSVParse currentYear csvData → s.year ≠ 0) ∧
       (∀ (rows : List CsvRow) (s : Song),
          s ∈ importCSVSongs currentYear rows → s.year ≠ 0)) := by
  constructor
  · intro currentYear v h
    unfold yearField
    rw [h]
    simp
  · intro currentYear hcy
    constructor
    · intro csvData s hs
      have hs' : s ∈ ((jsSplitChar '\n' csvData).drop 1).foldl
          (processRow currentYear
            (if strContainsChar ';' ((jsSplitChar '\n' csvData).headD "") then ';' else ','))
          [] := hs
      rcases foldl_mem_inv _ _
          (fun acc b s' h' => processRow_mem currentYear _ acc b s' h')
          _ _ s hs' with h | ⟨v, hv⟩
      · simp at h
      · rw [hv]
        exact yearField_ne_zero v currentYear hcy
    · intro rows s hs
      have hs' : s ∈ rows.foldl
          (fun songs row =>
            if (importRowToSong currentYear row).song_name ≠ "" ∧
               (importRowToSong currentYear row).band_name ≠ ""
            then songs ++ [importRowToSong currentYear row] else songs)
          [] := hs
      rcases foldl_mem_inv _
          (fun s => s.year = currentYear ∨ ∃ v, s.year = yearField v currentYear)
          (fun acc b s' h' => importStep_mem currentYear acc b s' h')
          rows [] s hs' with h | h
      · simp at h
      · rcases h with h | ⟨v, hv⟩
        · rw [h]; exact hcy
        · rw [hv]; exact yearField_ne_zero v currentYear hcy

/-- C9 witness: the literal year field "0" of an otherwise valid row is
    replaced by the current year 2026, and the record produced from the
    row `"A,B,0"` has a non-zero year. -/
theorem year_zero_falls_back_witness :
    yearField "0" 2026 = 2026 ∧
    ({ song_name := "a", band_name := "b", year := 2026 } : Song).year ≠ 0 :=
  ⟨year_zero_falls_back.1 2026 "0" (by decide),
   (year_zero_falls_back.2 2026 (by decide)).1 "band,song,year\nA,B,0"
     { song_name := "a", band_name := "b", year := 2026 } (by decide)⟩
